import Mathlib

/-!
Verification of the Media Hub resumable chunked upload orchestrator.

Each definition below is a shallow embedding of a function in the
repository source; the file, symbol and line range it was translated
from are named in its doc comment.  Theorems at the end of the file
settle the frozen claims about the orchestrator.
-/

namespace MediaHub

/-! ## Size-Tiered Dispatcher

Embedded from src/unnamed/part_012 (BatchUpload component): constants
INSTANT_LIMIT and MEDIUM_LIMIT, and the categorizeFiles reducer
(lines 266-288).  File objects are represented by their byte size,
the only attribute the classifier reads. -/

/-- The 4.5 MB Vercel function limit from part_012:
INSTANT_LIMIT is 4.5 * 1024 * 1024 bytes. -/
def INSTANT_LIMIT : Nat := 4718592

/-- The 500 MB resumable upload limit from part_012:
MEDIUM_LIMIT is 500 * 1024 * 1024 bytes. -/
def MEDIUM_LIMIT : Nat := 500 * 1024 * 1024

/-- The three groups produced by categorizeFiles in part_012. -/
structure FileGroup where
  instant : List Nat
  medium : List Nat
  manual : List Nat
deriving Repr, DecidableEq

/-- The branch body of the categorizeFiles reducer in part_012:
the tier a single file of the given byte size is pushed to. -/
inductive Tier where
  | instant
  | medium
  | manual
deriving Repr, DecidableEq

/-- Classification of one file by size, exactly the branch of the
reducer in part_012 lines 277-285: size at most INSTANT_LIMIT goes to
instant, otherwise size at most MEDIUM_LIMIT goes to medium, otherwise
manual. -/
def categorizeFile (size : Nat) : Tier :=
  if size ≤ INSTANT_LIMIT then Tier.instant
  else if size ≤ MEDIUM_LIMIT then Tier.medium
  else Tier.manual

/-- The categorizeFiles reducer of part_012 lines 276-287: a fold over
the file list pushing each file into the group selected by its size. -/
def categorizeFiles (files : List Nat) : FileGroup :=
  files.foldl
    (fun groups size =>
      if size ≤ INSTANT_LIMIT then
        ⟨groups.instant ++ [size], groups.medium, groups.manual⟩
      else if size ≤ MEDIUM_LIMIT then
        ⟨groups.instant, groups.medium ++ [size], groups.manual⟩
      else
        ⟨groups.instant, groups.medium, groups.manual ++ [size]⟩)
    ⟨[], [], []⟩

end MediaHub

namespace MediaHub

lemma categorizeFiles_go (files : List Nat) (g : FileGroup) :
    files.foldl
      (fun groups size =>
        if size ≤ INSTANT_LIMIT then
          ⟨groups.instant ++ [size], groups.medium, groups.manual⟩
        else if size ≤ MEDIUM_LIMIT then
          ⟨groups.instant, groups.medium ++ [size], groups.manual⟩
        else
          ⟨groups.instant, groups.medium, groups.manual ++ [size]⟩)
      g
    = ⟨g.instant ++ files.filter (fun s => s ≤ INSTANT_LIMIT),
       g.medium ++ files.filter (fun s => INSTANT_LIMIT < s ∧ s ≤ MEDIUM_LIMIT),
       g.manual ++ files.filter (fun s => MEDIUM_LIMIT < s)⟩ := by
  have hlim : INSTANT_LIMIT ≤ MEDIUM_LIMIT := by decide
  induction files generalizing g with
  | nil => simp
  | cons a l ih =>
    by_cases h1 : a ≤ INSTANT_LIMIT
    · simp [List.foldl_cons, h1, ih, List.filter_cons,
        show ¬(INSTANT_LIMIT < a ∧ a ≤ MEDIUM_LIMIT) from by omega,
        show ¬MEDIUM_LIMIT < a from by omega]
    · by_cases h2 : a ≤ MEDIUM_LIMIT
      · simp [List.foldl_cons, h1, h2, ih, List.filter_cons,
          show INSTANT_LIMIT < a ∧ a ≤ MEDIUM_LIMIT from by omega,
          show ¬MEDIUM_LIMIT < a from by omega]
      · simp [List.foldl_cons, h1, h2, ih, List.filter_cons,
          show ¬(INSTANT_LIMIT < a ∧ a ≤ MEDIUM_LIMIT) from by omega,
          show MEDIUM_LIMIT < a from by omega]

/-! ## Retry/Backoff Controller

Embedded from retryWithBackoff in
src/app/components/upload/ClientUpload.tsx lines 58-83, which is the
same loop as the retry helper in src/unnamed/part_002 lines 231-254:
for attempt from 1 to maxRetries, call the wrapped function; on
success return its value; on failure remember the error, rethrow it
when attempt equals maxRetries, otherwise sleep for the backoff delay
and continue.  The wrapped call is modelled as a stub indexed by the
attempt number; the pair returned counts how many times the stub was
actually invoked.  The backoff sleep changes no tracked state and is
not modelled. -/

/-- Loop body of retryWithBackoff: attempt is the current 1-based
attempt number and fuel is the number of attempts still allowed after
this one, so fuel = 0 encodes attempt = maxRetries, where the loop
rethrows the last error. -/
def retryGo {E A : Type} (stub : Nat → Except E A) : Nat → Nat → Except E A × Nat
  | attempt, 0 =>
    match stub attempt with
    | Except.ok v => (Except.ok v, 1)
    | Except.error e => (Except.error e, 1)
  | attempt, fuel + 1 =>
    match stub attempt with
    | Except.ok v => (Except.ok v, 1)
    | Except.error _ =>
      let p := retryGo stub (attempt + 1) fuel
      (p.1, p.2 + 1)

/-- retryWithBackoff of ClientUpload.tsx (also the retry helper of
part_002): run the stub from attempt 1 with maxRetries total attempts
allowed.  Returns the final outcome and the number of attempts used.
The sources always invoke it with a positive bound (3). -/
def retryWithBackoff {E A : Type} (stub : Nat → Except E A) (maxRetries : Nat) :
    Except E A × Nat :=
  retryGo stub 1 (maxRetries - 1)

/-! ## Chunk Transmitter and Progress Tracker

Embedded from the LargeFileUpload component
(src/app/components/upload/LargeFileUpload.tsx).  uploadChunk lines
124-157 interpret the backend response to one chunk PUT; performUpload
lines 199-275 drive the chunk loop.  The tracked progress state is the
uploadedBytes React state; a run is modelled by the ordered list of
values passed to setUploadedBytes. -/

/-- Chunk size of LargeFileUpload.tsx line 20: 10 * 1024 * 1024 bytes. -/
def CHUNK_SIZE : Nat := 10485760

/-- The backend response to one chunk PUT as uploadChunk reads it: the
HTTP status, and for a 308 the acknowledged last byte index parsed from
a Range header of the form bytes=0-k (none when the header is absent
or unparseable). -/
structure ChunkResponse where
  status : Nat
  rangeAck : Option Nat
deriving Repr, DecidableEq

/-- The setUploadedBytes calls made inside uploadChunk (lines 124-140)
for one response, given the end offset of the chunk that was sent: on
a 308 with a parsed Range header the tracker is set to ack + 1, on a
308 without one it is set to the end offset that was sent (the code
comment reads: if no range header, just update based on what we sent);
other statuses set nothing inside uploadChunk. -/
def uploadChunkUpdates (endOffset : Nat) (resp : ChunkResponse) : List Nat :=
  if resp.status = 308 then
    match resp.rangeAck with
    | some k => [k + 1]
    | none => [endOffset]
  else []

/-- The sequence of values assigned to uploadedBytes by the
performUpload chunk loop (lines 206-275) started at the given start
offset, when the backend answers the successive chunk PUTs with the
given responses.  Each 308 iteration contributes the updates made
inside uploadChunk followed by the unconditional
setUploadedBytes(end) at the bottom of the loop (line 273); a
non-308 response ends the loop (either the completion branch returns
or the thrown status error leaves the loop) without further updates.
The loop also stops when the response list is exhausted, modelling an
interruption. -/
def performUploadTrace (fileSize : Nat) : List ChunkResponse → Nat → List Nat
  | [], _ => []
  | r :: rest, start =>
    if start < fileSize then
      let endOffset := min (start + CHUNK_SIZE) fileSize
      if r.status = 308 then
        uploadChunkUpdates endOffset r
          ++ endOffset :: performUploadTrace fileSize rest endOffset
      else []
    else []

/-- The byte range of the next chunk performUpload transmits, from
lines 199-208: start is the current uploadedBytes value (the comment
reads: resume from where we left off), the end offset is
min (start + CHUNK_SIZE) fileSize, and no chunk is sent once start
has reached fileSize. -/
def nextChunkRange (uploadedBytes fileSize : Nat) : Option (Nat × Nat) :=
  if uploadedBytes < fileSize then
    some (uploadedBytes, min (uploadedBytes + CHUNK_SIZE) fileSize)
  else none

/-! ## Error classification of chunk transmission

Two transmitters exist in the source.  ClientUpload.tsx lines 161-180
wrap the chunk fetch in retryWithBackoff and throw inside the wrapper
only for server errors (status at least 500), so other statuses come
back as the fetch response and are handled after the wrapper.
LargeFileUpload.tsx uploadChunk lines 159-184 instead throw for every
status other than 308, 200 and 201 and the catch block retries any
error while retryCount is below 3. -/

/-- Outcome of a single chunk fetch: either a network-level failure
(the fetch promise rejects: timeout abort, connection reset) or an
HTTP response with the given status. -/
inductive FetchOutcome (E : Type) where
  | netFail (e : E)
  | http (status : Nat)
deriving Repr, DecidableEq

/-- Response.ok of the fetch API: status in the range 200 to 299. -/
def respOk (status : Nat) : Bool :=
  decide (200 ≤ status) && decide (status < 300)

/-- Errors a ClientUpload chunk transmission can surface with. -/
inductive ChunkError (E : Type) where
  | transport (e : E)
  | serverError (status : Nat)
  | uploadFailed (status : Nat)
deriving Repr, DecidableEq

/-- The function passed to retryWithBackoff in ClientUpload.tsx lines
161-180: perform the fetch (the backend stub is indexed by attempt
number); a rejected fetch propagates as a thrown error, a response
that is not ok and has status at least 500 is thrown as a server
error, and any other response is returned. -/
def clientChunkTry {E : Type} (backend : Nat → FetchOutcome E) (attempt : Nat) :
    Except (ChunkError E) Nat :=
  match backend attempt with
  | FetchOutcome.netFail e => Except.error (ChunkError.transport e)
  | FetchOutcome.http s =>
    if ¬respOk s ∧ 500 ≤ s then Except.error (ChunkError.serverError s)
    else Except.ok s

/-- One chunk upload step of ClientUpload.tsx: the retry wrapper around
clientChunkTry with the configured bound of 3 (line 180), followed by
the uploadResponse.ok check of lines 182 and 244-248, which throws an
upload-failed error for a response that is not ok.  Returns the
surfaced outcome and the number of fetch attempts made. -/
def clientUploadChunk {E : Type} (backend : Nat → FetchOutcome E) :
    Except (ChunkError E) Nat × Nat :=
  let p := retryWithBackoff (clientChunkTry backend) 3
  match p.1 with
  | Except.error e => (Except.error e, p.2)
  | Except.ok s =>
    if respOk s then (Except.ok s, p.2)
    else (Except.error (ChunkError.uploadFailed s), p.2)

/-- The status-driven retry recursion of uploadChunk in
LargeFileUpload.tsx lines 74-184, with the backend stub giving the
status of the fetch made at each retryCount: statuses 308, 200 and 201
return normally; any other status is thrown (line 160), caught, and
retried while retryCount is below 3 (lines 176-181), the error
propagating once the retries are spent.  The remaining argument is
3 - retryCount, the retries still allowed, so the initial call uses
remaining = 3.  Returns the outcome and the number of fetches made. -/
def largeUploadChunkGo (backend : Nat → Nat) : Nat → Nat → Except Nat Nat × Nat
  | retryCount, 0 =>
    let s := backend retryCount
    if s = 308 ∨ s = 200 ∨ s = 201 then (Except.ok s, 1)
    else (Except.error s, 1)
  | retryCount, r + 1 =>
    let s := backend retryCount
    if s = 308 ∨ s = 200 ∨ s = 201 then (Except.ok s, 1)
    else
      let p := largeUploadChunkGo backend (retryCount + 1) r
      (p.1, p.2 + 1)

/-- uploadChunk of LargeFileUpload.tsx entered with the default
retryCount = 0, hence 3 retries remaining. -/
def largeUploadChunk (backend : Nat → Nat) : Except Nat Nat × Nat :=
  largeUploadChunkGo backend 0 3

/-! ## Zero-byte chunk guard

Embedded from the performUpload loop body of the LargeFileUpload
variant in src/unnamed/part_009 lines 410-448: the loop slices the
chunk for the byte range from start to the end offset, and if the
sliced chunk has size 0 it throws before uploadChunk is ever called,
so no network request is issued and setUploadedBytes is not reached
for that attempt. -/

/-- Size of file.slice start endOffset for a file of fileSize bytes:
the Blob.slice contract clamps both offsets to the blob size and an
inverted range yields an empty blob (natural subtraction). -/
def blobSliceSize (fileSize start endOffset : Nat) : Nat :=
  min endOffset fileSize - min start fileSize

/-- What a chunk attempt of the part_009 loop does before any network
activity: either it is rejected with the thrown message, or it goes on
to transmit the range.  Only the transmit constructor leads to the
uploadChunk fetch and to progress updates. -/
inductive ChunkStep where
  | rejected (msg : String)
  | transmit (start endOffset : Nat)
deriving Repr, DecidableEq

/-- The message thrown by part_009 line 437 for an empty chunk. -/
def truncatedChunkMsg : String :=
  "File appears to be truncated - unable to read chunk"

/-- The guard of part_009 lines 421-448 for one chunk attempt over the
byte range from start to endOffset: slice the chunk, throw the
truncated-file error when its size is 0, otherwise hand the range to
uploadChunk. -/
def part9ChunkAttempt (fileSize start endOffset : Nat) : ChunkStep :=
  let chunkSize := blobSliceSize fileSize start endOffset
  if chunkSize = 0 then ChunkStep.rejected truncatedChunkMsg
  else ChunkStep.transmit start endOffset

/-- Number of network requests a chunk attempt issues: a rejected
attempt throws before the fetch, a transmitted one performs it. -/
def chunkStepRequests : ChunkStep → Nat
  | ChunkStep.rejected _ => 0
  | ChunkStep.transmit _ _ => 1

/-! ## Completion Reconciler

Embedded from POST in src/app/api/files/confirm-upload/route.ts (the
verbose variant is src/unnamed/part_000, identical in behavior).  The
route probes the resumable session with an empty Content-Range PUT,
extracts the Drive file id from the probe body or falls back to a
files.list search by name in the user folder, fetches metadata, and
inserts a File row with prisma.file.create.  Every thrown error is
caught at the bottom of the handler and returned as a 500 response
with success false, leaving the database untouched. -/

/-- A file as the Drive backend lists it: id, name, a modification
timestamp in epoch milliseconds, the trashed flag and the parent
folder id. -/
structure DriveFile where
  id : String
  name : String
  modifiedTime : Nat
  trashed : Bool
  parent : String
deriving Repr, DecidableEq

/-- The filter the files.list query of route.ts lines 68-73 asks the
backend to apply: name equals the declared file name, the user folder
is a parent, and the file is not trashed.  The request specifies no
ordering, so the listing order is whatever the backend returns. -/
def driveQueryMatches (fileName folderId : String) (f : DriveFile) : Bool :=
  decide (f.name = fileName) && decide (f.parent = folderId) && !f.trashed

/-- The files.list search of route.ts lines 68-74 over a backend
listing. -/
def searchFiles (listing : List DriveFile) (fileName folderId : String) :
    List DriveFile :=
  listing.filter (driveQueryMatches fileName folderId)

/-- File id resolution of route.ts lines 55-79: use the id field of
the status-probe body when present, otherwise search the user folder
by name and take the first entry of the listing (files at index 0),
yielding none when the search is empty too. -/
def resolveFileId (statusId : Option String) (listing : List DriveFile)
    (fileName folderId : String) : Option String :=
  match statusId with
  | some fid => some fid
  | none =>
    match searchFiles listing fileName folderId with
    | [] => none
    | f :: _ => some f.id

/-- Definition following the words of the spec, for comparison with
resolveFileId: among the files matching the fallback search, pick the
one with the greatest modification timestamp (the most recent one). -/
def specMostRecentMatchId (listing : List DriveFile) (fileName folderId : String) :
    Option String :=
  ((searchFiles listing fileName folderId).foldl
      (fun acc f =>
        match acc with
        | none => some f
        | some g => if g.modifiedTime < f.modifiedTime then some f else some g)
      none).map DriveFile.id

/-- A row of the File table as confirm-upload writes it.  The primary
key id is generated by the database; it is modelled as the row count
at insertion time. -/
structure FileRecord where
  id : Nat
  userId : String
  driveFileId : String
  name : String
  status : String
deriving Repr, DecidableEq

/-- prisma.file.create of route.ts lines 94-106 against the File table
of prisma/migrations/init.sql, whose line 34 declares the unique index
File_driveFileId_key on driveFileId: inserting a row whose driveFileId
already exists makes the database throw a unique-constraint error and
insert nothing. -/
def dbCreateFile (db : List FileRecord) (userId driveFileId name : String) :
    Except String (List FileRecord × FileRecord) :=
  if db.any (fun r => r.driveFileId == driveFileId) then
    Except.error "Unique constraint failed on the fields: (driveFileId)"
  else
    let created : FileRecord := ⟨db.length, userId, driveFileId, name, "NEW"⟩
    Except.ok (db ++ [created], created)

/-- The body of the HTTP response confirm-upload returns: success with
the stored record, or a non-2xx error with the caught message.  The
401 and 400 guards at the top of the handler are upstream of the logic
modelled here. -/
inductive ConfirmResult where
  | ok (rec : FileRecord)
  | err (status : Nat) (msg : String)
deriving Repr, DecidableEq

/-- The incomplete-session message thrown at route.ts line 48. -/
def incompleteMsg : String := "Upload is incomplete. Please continue uploading."

/-- The missing-id message thrown at route.ts line 81. -/
def noFileIdMsg : String := "Could not confirm file upload. File ID not found."

/-- POST of confirm-upload/route.ts after authentication and body
validation, as a function of the status-probe outcome (HTTP status of
the empty-range PUT and the optional id field of its body), the
backend folder listing used by the fallback search, and the database
state.  Per the catch chain of lines 42-52: status 200 or 201
continues, 308 throws the incomplete message, anything else rethrows;
the handler-level catch of lines 128-137 turns every thrown error into
a 500 response and performs no database write.  On the success path
the resolved id is stored through dbCreateFile; the metadata fetch of
lines 84-90 only fills display fields and is represented by the
declared file name.  Returns the response and the resulting database
state. -/
def confirmUpload (probeStatus : Nat) (probeId : Option String)
    (listing : List DriveFile) (userId fileName folderId : String)
    (db : List FileRecord) : ConfirmResult × List FileRecord :=
  if probeStatus = 200 ∨ probeStatus = 201 then
    match resolveFileId probeId listing fileName folderId with
    | none => (ConfirmResult.err 500 noFileIdMsg, db)
    | some fid =>
      match dbCreateFile db userId fid fileName with
      | Except.error msg => (ConfirmResult.err 500 msg, db)
      | Except.ok (db2, created) => (ConfirmResult.ok created, db2)
  else if probeStatus = 308 then
    (ConfirmResult.err 500 incompleteMsg, db)
  else
    (ConfirmResult.err 500 "Failed to confirm upload", db)

/-! ## Rate limiter

Embedded from checkRateLimit in src/lib/middleware/rate-limit.ts lines
31-122.  The two database operations inside the try block, the
findMany read of the recent activity and the create that logs the
request, are modelled as Except values; the catch block of lines
112-121 turns any throw into an allow-all result. -/

/-- A rate limit configuration (RATE_LIMITS entry). -/
structure RLConfig where
  windowMs : Nat
  maxRequests : Nat
  maxBytes : Option Nat
deriving Repr, DecidableEq

/-- The upload configuration: 20 requests and 1 GB per hour. -/
def uploadLimitConfig : RLConfig := ⟨3600000, 20, some 1073741824⟩

/-- The api configuration: 60 requests per minute. -/
def apiLimitConfig : RLConfig := ⟨60000, 60, none⟩

/-- One rateLimitLog row: creation time in epoch milliseconds and the
logged byte count (a null bytes column reads as 0 via the
log.bytes-or-0 fallback at line 58). -/
structure LogEntry where
  createdAt : Nat
  bytes : Nat
deriving Repr, DecidableEq

/-- The result shape checkRateLimit returns. -/
structure RateLimitResult where
  allowed : Bool
  limit : Nat
  remaining : Int
  retryAfter : Option Int
  bytesRemaining : Option Int
deriving Repr, DecidableEq

/-- The where clause of the findMany read at lines 42-54: rows of this
user and type created at or after windowStart = now - windowMs
(natural subtraction; the subtraction cannot go below epoch 0 for the
configured windows). -/
def rlRecent (cfg : RLConfig) (now : Nat) (rows : List LogEntry) : List LogEntry :=
  rows.filter (fun l => decide (now - cfg.windowMs ≤ l.createdAt))

/-- The bytes tally of line 58: sum of the bytes column over the
recent rows. -/
def rlBytesUsed (recent : List LogEntry) : Nat :=
  recent.foldl (fun s l => s + l.bytes) 0

/-- The byte-limit test of line 80: a configured maxBytes is exceeded
by the tally plus the requested bytes.  A missing maxBytes (and the
falsy maxBytes = 0, which no configuration uses) skips the test. -/
def rlBytesOver (cfg : RLConfig) (bytesUsed bytesRequested : Nat) : Bool :=
  match cfg.maxBytes with
  | some m => decide (m < bytesUsed + bytesRequested)
  | none => false

/-- The retryAfter seconds of lines 66-68: ceiling of the millisecond
gap from now to the reset time of the oldest recent row.  The gap is
nonnegative whenever the oldest row lies inside the window, where
adding 999 before flooring computes Math.ceil. -/
def rlRetryAfter (cfg : RLConfig) (now : Nat) (recent : List LogEntry) : Option Int :=
  match recent.head? with
  | some oldest => some (((oldest.createdAt + cfg.windowMs : Int) - now + 999) / 1000)
  | none => none

/-- The allow-all result the catch block of lines 112-121 returns: the
request is allowed and the full request limit is reported as
remaining. -/
def rlFailOpen (cfg : RLConfig) : RateLimitResult :=
  ⟨true, cfg.maxRequests, (cfg.maxRequests : Int), none, none⟩

/-- checkRateLimit of rate-limit.ts lines 31-122.  dbRead is the
findMany over the full rateLimitLog table rows of this user and type
(the window filter is applied per the where clause); dbWrite is the
create that logs the request, consulted only when both limit tests
pass.  An error outcome of either operation is the thrown exception
reaching the catch block, which answers rlFailOpen.  On the allowed
path remaining is requestsRemaining - 1 and a truthy bytesRemaining is
decremented by the requested bytes (a zero bytesRemaining is falsy in
the source and reported as undefined, line 110).  The fire-and-forget
cleanupOldLogs call changes no returned state and is not modelled. -/
def checkRateLimit (cfg : RLConfig) (now : Nat)
    (dbRead : Except String (List LogEntry)) (dbWrite : Except String Unit)
    (bytesRequested : Nat) : RateLimitResult :=
  match dbRead with
  | Except.error _ => rlFailOpen cfg
  | Except.ok rows =>
    let recent := rlRecent cfg now rows
    let requestCount := recent.length
    let bytesUsed := rlBytesUsed recent
    let requestsRemaining : Int := (cfg.maxRequests : Int) - requestCount
    let bytesRemaining : Option Int := cfg.maxBytes.map (fun m => (m : Int) - bytesUsed)
    if cfg.maxRequests ≤ requestCount then
      ⟨false, cfg.maxRequests, 0, rlRetryAfter cfg now recent, bytesRemaining⟩
    else if rlBytesOver cfg bytesUsed bytesRequested then
      ⟨false, cfg.maxRequests, requestsRemaining, rlRetryAfter cfg now recent,
        cfg.maxBytes.map (fun m => max 0 ((m : Int) - bytesUsed))⟩
    else
      match dbWrite with
      | Except.error _ => rlFailOpen cfg
      | Except.ok _ =>
        ⟨true, cfg.maxRequests, requestsRemaining - 1, none,
          bytesRemaining.bind (fun b =>
            if b = 0 then none else some (b - bytesRequested))⟩

/-! ## Claims -/

/-- C3: the Size-Tiered Dispatcher classifies a file of byte size s as
instant exactly when s is at most INSTANT_LIMIT (so the file exactly
at the limit is instant, closed upper bound), as chunked (medium)
exactly when s lies strictly above INSTANT_LIMIT and at most
MEDIUM_LIMIT, and as manual exactly when s exceeds MEDIUM_LIMIT;
categorizeFiles groups a batch by exactly these predicates, depending
on nothing but the sizes. -/
theorem categorizeFile_tiers (s : Nat) :
    (categorizeFile s = Tier.instant ↔ s ≤ INSTANT_LIMIT) ∧
    (categorizeFile s = Tier.medium ↔ INSTANT_LIMIT < s ∧ s ≤ MEDIUM_LIMIT) ∧
    (categorizeFile s = Tier.manual ↔ MEDIUM_LIMIT < s) ∧
    categorizeFile INSTANT_LIMIT = Tier.instant ∧
    (∀ files : List Nat,
      categorizeFiles files
        = ⟨files.filter (fun t => t ≤ INSTANT_LIMIT),
           files.filter (fun t => INSTANT_LIMIT < t ∧ t ≤ MEDIUM_LIMIT),
           files.filter (fun t => MEDIUM_LIMIT < t)⟩) := by
  have hlim : INSTANT_LIMIT ≤ MEDIUM_LIMIT := by decide
  refine ⟨?_, ?_, ?_, ?_, ?_⟩
  · unfold categorizeFile
    split_ifs with h1 h2 <;> simp_all
  · unfold categorizeFile
    split_ifs with h1 h2 <;> simp_all <;> try omega
  · unfold categorizeFile
    split_ifs with h1 h2 <;> simp_all <;> try omega
  · unfold categorizeFile
    simp
  · intro files
    rw [categorizeFiles, categorizeFiles_go]
    simp

/-- C5: the retry controller with bound 3, given a wrapped call that
fails on its first two attempts and succeeds on the third, succeeds
with the third attempt's value after exactly 3 calls; given a wrapped
call that fails on every attempt, it fails after exactly 3 calls and
propagates the error of the last (third) attempt. -/
theorem retryWithBackoff_attempts {E A : Type} (stub stubAll : Nat → Except E A)
    (e1 e2 : E) (v : A) (err : Nat → E)
    (h1 : stub 1 = Except.error e1) (h2 : stub 2 = Except.error e2)
    (h3 : stub 3 = Except.ok v)
    (hall : ∀ n, stubAll n = Except.error (err n)) :
    retryWithBackoff stub 3 = (Except.ok v, 3) ∧
    retryWithBackoff stubAll 3 = (Except.error (err 3), 3) := by
  constructor
  · simp [retryWithBackoff, retryGo, h1, h2, h3]
  · simp [retryWithBackoff, retryGo, hall]

/-- Witness for C5 at two concrete stubs: one failing twice then
returning 7, one failing on every attempt with the attempt number as
the error. -/
theorem retryWithBackoff_attempts_witness :
    retryWithBackoff
        (fun n => if n ≤ 2 then Except.error "transient" else Except.ok 7) 3
      = (Except.ok 7, 3) ∧
    retryWithBackoff (fun n : Nat => (Except.error (toString n) : Except String Nat)) 3
      = (Except.error (toString 3), 3) :=
  retryWithBackoff_attempts
    (fun n => if n ≤ 2 then Except.error "transient" else Except.ok 7)
    (fun n : Nat => (Except.error (toString n) : Except String Nat))
    "transient" "transient" 7 toString rfl rfl rfl (fun _ => rfl)

/-- C2 counterexample: for a 30 MB file uploaded in 10 MB chunks, a
backend that acknowledges the full first chunk and then answers the
second chunk with the smaller-than-sent acknowledgment bytes=0-5242879
produces the uploadedBytes trace 10485760, 10485760, 5242880,
20971520, which is not monotonically non-decreasing; and a single
chunk answered with acknowledgment bytes=0-5242879 leaves the tracker
at 10485760, the end offset of the locally transmitted chunk, not at
the confirmed offset 5242880. -/
theorem progress_trace_cex :
    performUploadTrace 31457280 [⟨308, some 10485759⟩, ⟨308, some 5242879⟩] 0
        = [10485760, 10485760, 5242880, 20971520] ∧
    ¬ List.Chain' (· ≤ ·)
        (performUploadTrace 31457280 [⟨308, some 10485759⟩, ⟨308, some 5242879⟩] 0) ∧
    (performUploadTrace 31457280 [⟨308, some 5242879⟩] 0).getLast? = some 10485760 ∧
    (⟨308, some 5242879⟩ : ChunkResponse).rangeAck = some 5242879 := by
  have htrace :
      performUploadTrace 31457280 [⟨308, some 10485759⟩, ⟨308, some 5242879⟩] 0
        = [10485760, 10485760, 5242880, 20971520] := by decide
  refine ⟨htrace, ?_, by decide, rfl⟩
  rw [htrace]
  simp [List.chain'_cons]

/-- C2 as amended: inside uploadChunk a 308 response with a Range
header does set the tracker to the acknowledged offset (and one
without a Range header sets it to the end offset that was sent), but
the bottom of every loop iteration then unconditionally sets the
tracker to the end offset of the locally transmitted chunk, so each
iteration ends with the tracker at that local end offset, strictly
above the iteration's start; the value is therefore monotonically
increasing at iteration boundaries but not across the intermediate
acknowledgment updates, and it does advance optimistically to the
local end offset rather than only to the confirmed one. -/
theorem progress_iteration_end (fileSize start k : Nat) (hlt : start < fileSize) :
    performUploadTrace fileSize [⟨308, some k⟩] start
        = [k + 1, min (start + CHUNK_SIZE) fileSize] ∧
    performUploadTrace fileSize [⟨308, none⟩] start
        = [min (start + CHUNK_SIZE) fileSize, min (start + CHUNK_SIZE) fileSize] ∧
    start < min (start + CHUNK_SIZE) fileSize ∧
    (∀ (r : ChunkResponse) (rest : List ChunkResponse), r.status = 308 →
      performUploadTrace fileSize (r :: rest) start
        = uploadChunkUpdates (min (start + CHUNK_SIZE) fileSize) r
            ++ min (start + CHUNK_SIZE) fileSize
               :: performUploadTrace fileSize rest (min (start + CHUNK_SIZE) fileSize)) := by
  have hc : 0 < CHUNK_SIZE := by decide
  refine ⟨?_, ?_, ?_, ?_⟩
  · simp [performUploadTrace, uploadChunkUpdates, hlt]
  · simp [performUploadTrace, uploadChunkUpdates, hlt]
  · exact Nat.lt_min.mpr ⟨by omega, hlt⟩
  · intro r rest h308
    simp [performUploadTrace, hlt, h308]

/-- Witness for C2's amended theorem at a 20 MB file, start offset 0
and acknowledged byte index 5242879. -/
theorem progress_iteration_end_witness :
    0 < 20971520 ∧
    (performUploadTrace 20971520 [⟨308, some 5242879⟩] 0
        = [5242880, min (0 + CHUNK_SIZE) 20971520] ∧
     performUploadTrace 20971520 [⟨308, none⟩] 0
        = [min (0 + CHUNK_SIZE) 20971520, min (0 + CHUNK_SIZE) 20971520] ∧
     0 < min (0 + CHUNK_SIZE) 20971520 ∧
     (∀ (r : ChunkResponse) (rest : List ChunkResponse), r.status = 308 →
       performUploadTrace 20971520 (r :: rest) 0
         = uploadChunkUpdates (min (0 + CHUNK_SIZE) 20971520) r
             ++ min (0 + CHUNK_SIZE) 20971520
                :: performUploadTrace 20971520 rest (min (0 + CHUNK_SIZE) 20971520))) :=
  ⟨by decide, progress_iteration_end 20971520 0 5242879 (by decide)⟩

/-- C4: when the upload loop is entered with uploadedBytes = N for
some N strictly below the file size, the next chunk it transmits
covers exactly the byte range from N to min (N + CHUNK_SIZE) fileSize:
it starts exactly at N, so no byte below N is re-sent and no byte
between N and the chunk start is skipped, and the range is nonempty
and stays within the file. -/
theorem resume_next_chunk_range (N fileSize : Nat) (h : N < fileSize) :
    nextChunkRange N fileSize = some (N, min (N + CHUNK_SIZE) fileSize) ∧
    N < min (N + CHUNK_SIZE) fileSize ∧
    min (N + CHUNK_SIZE) fileSize ≤ fileSize := by
  have hc : 0 < CHUNK_SIZE := by decide
  refine ⟨by simp [nextChunkRange, h], Nat.lt_min.mpr ⟨by omega, h⟩, Nat.min_le_right _ _⟩

/-- Witness for C4 at N = 5242880 and a 20 MB file. -/
theorem resume_next_chunk_range_witness :
    5242880 < 20971520 ∧
    (nextChunkRange 5242880 20971520
        = some (5242880, min (5242880 + CHUNK_SIZE) 20971520) ∧
     5242880 < min (5242880 + CHUNK_SIZE) 20971520 ∧
     min (5242880 + CHUNK_SIZE) 20971520 ≤ 20971520) :=
  ⟨by decide, resume_next_chunk_range 5242880 20971520 (by decide)⟩

/-- C6 counterexample: LargeFileUpload's uploadChunk, against a
backend that always answers status 404 (a non-retryable 4xx that is
not a protocol signal), performs 4 fetches before the failure
propagates, so the 4xx consumed all 3 retry attempts instead of
propagating immediately after the single attempt. -/
theorem large_chunk_retries_4xx_cex :
    largeUploadChunk (fun _ => 404) = (Except.error 404, 4) ∧
    (largeUploadChunk (fun _ => 404)).2 ≠ 1 := by
  exact ⟨rfl, by decide⟩

/-- C6 as amended: in ClientUpload's chunk path a 4xx response (not ok
and below 500) is returned by the retried closure rather than thrown,
so it surfaces as an upload-failed error after exactly one fetch,
without consuming retry attempts; but LargeFileUpload's uploadChunk
throws on every status other than 308, 200 and 201 and its catch
block retries any such error, so there a persistent non-protocol
status is fetched 4 times before the failure propagates. -/
theorem chunk_4xx_retry_behavior {E : Type} (backend : Nat → FetchOutcome E)
    (s t : Nat) (hb : backend 1 = FetchOutcome.http s)
    (h400 : 400 ≤ s) (h500 : s < 500)
    (ht308 : t ≠ 308) (ht200 : t ≠ 200) (ht201 : t ≠ 201) :
    clientUploadChunk backend = (Except.error (ChunkError.uploadFailed s), 1) ∧
    largeUploadChunk (fun _ => t) = (Except.error t, 4) := by
  have hok : respOk s = false := by
    simp only [respOk, Bool.and_eq_false_iff, decide_eq_false_iff_not]
    omega
  constructor
  · have htry : clientChunkTry backend 1 = Except.ok s := by
      simp [clientChunkTry, hb, hok]
      omega
    simp [clientUploadChunk, retryWithBackoff, retryGo, htry, hok]
  · simp [largeUploadChunk, largeUploadChunkGo, ht308, ht200, ht201]

/-- Witness for C6's amended theorem: a backend answering 404 on the
first fetch for the ClientUpload half, constant status 404 for the
LargeFileUpload half. -/
theorem chunk_4xx_retry_behavior_witness :
    ((fun _ => FetchOutcome.http 404 : Nat → FetchOutcome Unit) 1
        = FetchOutcome.http 404) ∧
    (clientUploadChunk (fun _ => FetchOutcome.http 404 : Nat → FetchOutcome Unit)
        = (Except.error (ChunkError.uploadFailed 404), 1) ∧
     largeUploadChunk (fun _ => 404) = (Except.error 404, 4)) :=
  ⟨rfl, chunk_4xx_retry_behavior (fun _ => FetchOutcome.http 404) 404 404
    rfl (by decide) (by decide) (by decide) (by decide) (by decide)⟩

/-- C7: a chunk attempt whose byte range is empty (start equals the
end offset) is rejected by the part_009 upload loop with the
truncated-file error before uploadChunk runs: the attempt issues zero
network requests, and since only the transmit step reaches
setUploadedBytes, no progress state is advanced for it. -/
theorem zero_chunk_rejected (fileSize start endOffset : Nat) (h : start = endOffset) :
    part9ChunkAttempt fileSize start endOffset
        = ChunkStep.rejected truncatedChunkMsg ∧
    chunkStepRequests (part9ChunkAttempt fileSize start endOffset) = 0 := by
  subst h
  simp [part9ChunkAttempt, blobSliceSize, chunkStepRequests]

/-- Witness for C7 at a 100-byte file and the empty range from 50
to 50. -/
theorem zero_chunk_rejected_witness :
    (50 : Nat) = 50 ∧
    (part9ChunkAttempt 100 50 50 = ChunkStep.rejected truncatedChunkMsg ∧
     chunkStepRequests (part9ChunkAttempt 100 50 50) = 0) :=
  ⟨rfl, zero_chunk_rejected 100 50 50 rfl⟩

/-- Backend listing with two files of the same name in the same
folder, the second one more recently modified. -/
def c8Listing : List DriveFile :=
  [⟨"fileA", "v.mp4", 5, false, "folder"⟩, ⟨"fileB", "v.mp4", 9, false, "folder"⟩]

/-- C8 counterexample: when the status probe yields no id and the
fallback search returns two files named v.mp4, the reconciler resolves
to fileA, the first entry of the listing, while the most recent of the
two (what the claim says is picked) is fileB. -/
theorem fallback_first_not_most_recent_cex :
    resolveFileId none c8Listing "v.mp4" "folder" = some "fileA" ∧
    specMostRecentMatchId c8Listing "v.mp4" "folder" = some "fileB" ∧
    ("fileA" : String) ≠ "fileB" := by
  exact ⟨rfl, rfl, by decide⟩

/-- C8 as amended: when the reconciler cannot extract the file id from
the session status response it does fall back to searching the
destination folder listing for non-trashed files with the declared
name, but with more than one match it resolves to the first file of
the listing response (the query requests no ordering), not necessarily
the most recent one. -/
theorem fallback_search_first (statusId : Option String) (listing : List DriveFile)
    (fileName folderId : String) (f : DriveFile) (rest : List DriveFile)
    (hnone : statusId = none)
    (hsearch : searchFiles listing fileName folderId = f :: rest) :
    resolveFileId statusId listing fileName folderId = some f.id ∧
    f ∈ listing ∧ f.name = fileName ∧ f.parent = folderId ∧ f.trashed = false := by
  subst hnone
  have hmem : f ∈ searchFiles listing fileName folderId := by
    rw [hsearch]
    exact List.mem_cons_self f rest
  obtain ⟨hl, hq⟩ := List.mem_filter.mp hmem
  simp only [driveQueryMatches, Bool.and_eq_true, decide_eq_true_eq,
    Bool.not_eq_true'] at hq
  exact ⟨by simp [resolveFileId, hsearch], hl, hq.1.1, hq.1.2, hq.2⟩

/-- Witness for C8's amended theorem on the two-file listing. -/
theorem fallback_search_first_witness :
    (none : Option String) = none ∧
    searchFiles c8Listing "v.mp4" "folder"
        = (⟨"fileA", "v.mp4", 5, false, "folder"⟩ : DriveFile)
            :: [⟨"fileB", "v.mp4", 9, false, "folder"⟩] ∧
    (resolveFileId none c8Listing "v.mp4" "folder"
        = some (DriveFile.id ⟨"fileA", "v.mp4", 5, false, "folder"⟩) ∧
     (⟨"fileA", "v.mp4", 5, false, "folder"⟩ : DriveFile) ∈ c8Listing ∧
     DriveFile.name ⟨"fileA", "v.mp4", 5, false, "folder"⟩ = "v.mp4" ∧
     DriveFile.parent ⟨"fileA", "v.mp4", 5, false, "folder"⟩ = "folder" ∧
     DriveFile.trashed ⟨"fileA", "v.mp4", 5, false, "folder"⟩ = false) :=
  ⟨rfl, by decide,
   fallback_search_first none c8Listing "v.mp4" "folder"
     ⟨"fileA", "v.mp4", 5, false, "folder"⟩ [⟨"fileB", "v.mp4", 9, false, "folder"⟩]
     rfl (by decide)⟩

/-- C9: when the status probe of the confirm-upload endpoint reports
the session incomplete (status 308 on the empty-range query), the
endpoint answers the 500 incomplete-upload error and the database
state it returns is exactly the one it was given: no FileRecord is
created on this error path. -/
theorem incomplete_probe_no_record (probeId : Option String)
    (listing : List DriveFile) (userId fileName folderId : String)
    (db : List FileRecord) :
    confirmUpload 308 probeId listing userId fileName folderId db
        = (ConfirmResult.err 500 incompleteMsg, db) := by
  simp [confirmUpload]

/-- Database already holding the record reconciliation produced for
Drive file driveX. -/
def c1Db : List FileRecord := [⟨0, "user1", "driveX", "v.mp4", "NEW"⟩]

/-- C1 counterexample: a confirm-upload call that resolves Drive file
id driveX while a FileRecord with that driveFileId already exists does
not return the existing record as an idempotent no-op; the insert
violates the unique index File_driveFileId_key, and the endpoint
answers a 500 unique-constraint error (the database is left
unchanged). -/
theorem confirm_duplicate_cex :
    (confirmUpload 200 (some "driveX") [] "user1" "v.mp4" "folder" c1Db).1
        = ConfirmResult.err 500 "Unique constraint failed on the fields: (driveFileId)" ∧
    (confirmUpload 200 (some "driveX") [] "user1" "v.mp4" "folder" c1Db).2 = c1Db ∧
    (confirmUpload 200 (some "driveX") [] "user1" "v.mp4" "folder" c1Db).1
        ≠ ConfirmResult.ok ⟨0, "user1", "driveX", "v.mp4", "NEW"⟩ := by
  exact ⟨rfl, rfl, by decide⟩

/-- C1 as amended: a reconciliation call that resolves an identifier
for which a FileRecord already exists fails with a 500
unique-constraint error and inserts nothing (the database is returned
unchanged), instead of returning the existing record; and because the
insert is guarded by the uniqueness check of File_driveFileId_key, any
confirm-upload call preserves the invariant that at most one
FileRecord exists per backend file identifier. -/
theorem confirm_duplicate_errors (probeId : Option String) (listing : List DriveFile)
    (userId fileName folderId d : String) (db : List FileRecord)
    (hres : resolveFileId probeId listing fileName folderId = some d)
    (hex : db.any (fun r => r.driveFileId == d) = true) :
    ((confirmUpload 200 probeId listing userId fileName folderId db).1
        = ConfirmResult.err 500 "Unique constraint failed on the fields: (driveFileId)" ∧
     (confirmUpload 200 probeId listing userId fileName folderId db).2 = db) ∧
    ∀ (ps : Nat) (pid : Option String) (lst : List DriveFile)
      (uid fn fol d2 : String) (db2 : List FileRecord),
      db2.countP (fun r => r.driveFileId == d2) ≤ 1 →
      ((confirmUpload ps pid lst uid fn fol db2).2.countP
          (fun r => r.driveFileId == d2)) ≤ 1 := by
  constructor
  · simp [confirmUpload, hres, dbCreateFile, hex]
  · intro ps pid lst uid fn fol d2 db2 hcount
    by_cases hps : ps = 200 ∨ ps = 201
    · cases hr : resolveFileId pid lst fn fol with
      | none => simpa [confirmUpload, hps, hr] using hcount
      | some fid =>
        by_cases hany : db2.any (fun r => r.driveFileId == fid) = true
        · simpa [confirmUpload, hps, hr, dbCreateFile, hany] using hcount
        · have hnone : ∀ r ∈ db2, (r.driveFileId == fid) = false := by
            intro r hrmem
            by_contra hcontra
            exact hany (List.any_eq_true.mpr
              ⟨r, hrmem, by simpa using hcontra⟩)
          have hstep :
              (confirmUpload ps pid lst uid fn fol db2).2
                = db2 ++ [⟨db2.length, uid, fid, fn, "NEW"⟩] := by
            simp [confirmUpload, hps, hr, dbCreateFile, hany]
          rw [hstep, List.countP_append]
          by_cases hd : (fid == d2) = true
          · have hfid : fid = d2 := by simpa using hd
            have hzero : db2.countP (fun r => r.driveFileId == d2) = 0 := by
              apply List.countP_eq_zero.mpr
              intro r hrmem
              subst hfid
              simp [hnone r hrmem]
            simp [hzero, List.countP_cons, hd]
          · have hd' : (fid == d2) = false := by simpa using hd
            simpa [List.countP_cons, hd'] using hcount
    · by_cases h308 : ps = 308
      · simpa [confirmUpload, hps, h308] using hcount
      · simpa [confirmUpload, hps, h308] using hcount

/-- Witness for C1's amended theorem on a database already holding the
record for driveX. -/
theorem confirm_duplicate_errors_witness :
    resolveFileId (some "driveX") [] "v.mp4" "folder" = some "driveX" ∧
    c1Db.any (fun r => r.driveFileId == "driveX") = true ∧
    ((confirmUpload 200 (some "driveX") [] "user1" "v.mp4" "folder" c1Db).1
        = ConfirmResult.err 500 "Unique constraint failed on the fields: (driveFileId)" ∧
     (confirmUpload 200 (some "driveX") [] "user1" "v.mp4" "folder" c1Db).2 = c1Db) :=
  ⟨rfl, by decide,
   (confirm_duplicate_errors (some "driveX") [] "user1" "v.mp4" "folder" "driveX"
     c1Db rfl (by decide)).1⟩

/-- C10: checkRateLimit fails open: when the findMany read throws, and
likewise when the limit tests pass but the logging write throws, the
caught error makes the function return allowed = true with the full
request limit reported as remaining, for every owner state and
requested byte count, so an infrastructure error never blocks an
upload request. -/
theorem rate_limit_fails_open (cfg : RLConfig) (now bytesRequested : Nat)
    (dbWrite : Except String Unit) (e : String) :
    checkRateLimit cfg now (Except.error e) dbWrite bytesRequested = rlFailOpen cfg ∧
    (rlFailOpen cfg).allowed = true ∧
    (rlFailOpen cfg).remaining = (cfg.maxRequests : Int) ∧
    ∀ (rows : List LogEntry) (e2 : String),
      (rlRecent cfg now rows).length < cfg.maxRequests →
      rlBytesOver cfg (rlBytesUsed (rlRecent cfg now rows)) bytesRequested = false →
      checkRateLimit cfg now (Except.ok rows) (Except.error e2) bytesRequested
        = rlFailOpen cfg := by
  refine ⟨rfl, rfl, rfl, ?_⟩
  intro rows e2 hcount hbytes
  have h1 : ¬ cfg.maxRequests ≤ (rlRecent cfg now rows).length := Nat.not_le.mpr hcount
  simp [checkRateLimit, h1, hbytes]

/-- Witness for C10 with the upload configuration, an empty log table
and a 5-byte request. -/
theorem rate_limit_fails_open_witness :
    (rlRecent uploadLimitConfig 7200000 []).length < uploadLimitConfig.maxRequests ∧
    rlBytesOver uploadLimitConfig
        (rlBytesUsed (rlRecent uploadLimitConfig 7200000 [])) 5 = false ∧
    checkRateLimit uploadLimitConfig 7200000 (Except.error "db down") (Except.ok ()) 5
        = rlFailOpen uploadLimitConfig ∧
    checkRateLimit uploadLimitConfig 7200000 (Except.ok []) (Except.error "db down") 5
        = rlFailOpen uploadLimitConfig :=
  ⟨by decide, by decide,
   (rate_limit_fails_open uploadLimitConfig 7200000 5 (Except.ok ()) "db down").1,
   (rate_limit_fails_open uploadLimitConfig 7200000 5
       (Except.error "db down") "db down").2.2.2 [] "db down" (by decide) (by decide)⟩

end MediaHub
